import Mathlib

/-!
Verification of `store_dashboard.py` (DSP-Webhook-Alert): a shallow embedding
of the dashboard's column resolver, feed loader, annotation store and the
status-rendering / filtering loops, with theorems settling the specification's
claims about them.
-/

set_option autoImplicit false

namespace DSPDashboard

/-! ## Substring matching

Python's `needle in haystack` on strings is contiguous-substring containment.
We embed it as a boolean test on character lists. -/

/-- Boolean test: does the character list `n` occur contiguously inside `l`? -/
def subList (n : List Char) : List Char → Bool
  | [] => n.isPrefixOf []
  | c :: rest => n.isPrefixOf (c :: rest) || subList n rest

/-- Embeds Python `needle in hay` for strings (contiguous substring test). -/
def strContains (hay needle : String) : Bool :=
  subList needle.toList hay.toList

/-- Embeds Python `s.lower()`: lowercase character by character. The headers
this program compares are ASCII, where Python's `str.lower` and a charwise
ASCII lowercase agree. -/
def pyLower (s : String) : String :=
  String.mk (s.toList.map Char.toLower)

/-! ## Column Resolver (store_dashboard.py lines 82-121)

The module-level code scans `data.columns`, lowercases each header and binds
it to the first role whose keyword test it passes (an `if/elif` chain), then
applies positional fallbacks with `st.warning` advisories, and finally an
exact-match retry for the inactive-DSP column. -/

/-- Keyword test for the identity role, on the lowercased header
(line 91: `'id' in col_lower and ('store' in col_lower or 'location' in col_lower)`). -/
def idPred (cl : String) : Bool :=
  strContains cl "id" && (strContains cl "store" || strContains cl "location")

/-- Keyword test for the name role, on the lowercased header (line 93). -/
def namePred (cl : String) : Bool :=
  strContains cl "name" && (strContains cl "store" || strContains cl "location")

/-- Keyword test for the company role, on the lowercased header (line 95). -/
def companyPred (cl : String) : Bool :=
  strContains cl "company" || strContains cl "business"

/-- Keyword test for the inactive-platforms role, on the lowercased header (line 97). -/
def inactivePred (cl : String) : Bool :=
  strContains cl "inactive" && (strContains cl "dsp" || strContains cl "delivery")

/-- The four column roles of the dashboard. -/
inductive Role where
  | identity
  | storeName
  | company
  | inactivePlatforms
  deriving DecidableEq, Repr

/-- The resolver's state: the four column variables of lines 83-86. -/
structure ColumnMapping where
  id_column : Option String
  name_column : Option String
  company_column : Option String
  inactive_dsp_column : Option String
  deriving DecidableEq, Repr

/-- Read the column bound to a role out of a `ColumnMapping`. -/
def ColumnMapping.forRole (m : ColumnMapping) : Role → Option String
  | .identity => m.id_column
  | .storeName => m.name_column
  | .company => m.company_column
  | .inactivePlatforms => m.inactive_dsp_column

/-- One iteration of the detection loop (lines 89-98): lowercase the header
and run the `if/elif` chain, overwriting the matched role's variable. -/
def detectStep (m : ColumnMapping) (col : String) : ColumnMapping :=
  let cl := pyLower col
  if idPred cl then { m with id_column := some col }
  else if namePred cl then { m with name_column := some col }
  else if companyPred cl then { m with company_column := some col }
  else if inactivePred cl then { m with inactive_dsp_column := some col }
  else m

/-- The whole detection loop over `data.columns`, starting from the four
`None` variables of lines 83-86. -/
def detectColumns (headers : List String) : ColumnMapping :=
  headers.foldl detectStep ⟨none, none, none, none⟩

/-- The first role whose keyword test a lowercased header passes, in the
source's `if/elif` order — the role the loop body would bind the header to. -/
def firstRole (cl : String) : Option Role :=
  if idPred cl then some .identity
  else if namePred cl then some .storeName
  else if companyPred cl then some .company
  else if inactivePred cl then some .inactivePlatforms
  else none

/-- The last element of `l` satisfying `p` (candidates scanned left to right,
later matches overwriting earlier ones), mirroring repeated assignment in a
loop. -/
def lastMatch (p : String → Bool) (l : List String) : Option String :=
  l.foldl (fun acc c => if p c then some c else acc) none

/-- Result of the full resolver: the mapping plus the `st.warning` advisories
surfaced along the way. -/
structure Resolution where
  mapping : ColumnMapping
  warnings : List String
  deriving DecidableEq, Repr

/-- The full module-level resolution (lines 82-121): detection loop, then the
positional fallbacks for id/name/company with their warnings, then the
exact-match retry for the inactive-DSP column and its warning. -/
def resolveColumns (headers : List String) : Resolution :=
  let d := detectColumns headers
  let idFall :=
    match d.id_column with
    | some c => (some c, ([] : List String))
    | none =>
      if headers.length > 0 then
        (some (headers.getD 0 ""),
          ["Could not find a store ID column. Using '" ++ headers.getD 0 "" ++ "' instead."])
      else (none, [])
  let nameFall :=
    match d.name_column with
    | some c => (some c, ([] : List String))
    | none =>
      if headers.length > 1 then
        (some (headers.getD 1 ""),
          ["Could not find a store name column. Using '" ++ headers.getD 1 "" ++ "' instead."])
      else (none, [])
  let companyFall :=
    match d.company_column with
    | some c => (some c, ([] : List String))
    | none =>
      if headers.length > 2 then
        (some (headers.getD 2 ""),
          ["Could not find a company name column. Using '" ++ headers.getD 2 "" ++ "' instead."])
      else (none, [])
  let inact :=
    match d.inactive_dsp_column with
    | some c => some c
    | none =>
      headers.find? (fun col => pyLower col == "inactive_dsps" || pyLower col == "inactive_dsp")
  let inactWarn :=
    match inact with
    | some _ => ([] : List String)
    | none => ["Could not find an inactive DSP column. This information will not be displayed."]
  { mapping := ⟨idFall.1, nameFall.1, companyFall.1, inact⟩
    warnings := idFall.2 ++ nameFall.2 ++ companyFall.2 ++ inactWarn }

/-! ### Resolver lemmas -/

theorem forRole_detectStep (m : ColumnMapping) (col : String) (r : Role) :
    (detectStep m col).forRole r =
      if firstRole (pyLower col) = some r then some col else m.forRole r := by
  cases r <;>
    simp only [detectStep, firstRole, ColumnMapping.forRole] <;>
    split_ifs <;>
    simp_all [ColumnMapping.forRole]

theorem forRole_foldl (l : List String) (m : ColumnMapping) (acc : Option String) (r : Role)
    (h : m.forRole r = acc) :
    (l.foldl detectStep m).forRole r =
      l.foldl (fun a c => if firstRole (pyLower c) = some r then some c else a) acc := by
  induction l generalizing m acc with
  | nil => simpa using h
  | cons c t ih =>
    simp only [List.foldl_cons]
    exact ih (detectStep m c) _ (by rw [forRole_detectStep, h])

/-- C1 — amended. The detection loop binds each role to the LAST header (in
header order) whose first matching role, in the source's `if/elif` test order
(identity, name, company, inactivePlatforms), is that role; each role holds at
most one header. -/
theorem c1_last_match_wins (headers : List String) (r : Role) :
    (detectColumns headers).forRole r =
      lastMatch (fun c => firstRole (pyLower c) == some r) headers := by
  unfold detectColumns lastMatch
  rw [forRole_foldl headers ⟨none, none, none, none⟩ none r (by cases r <;> rfl)]
  congr 1
  funext a c
  by_cases h : firstRole (pyLower c) = some r <;> simp [h]

/-- C1 — counterexample. Both "store_id" and "location_id" pass the identity
keyword test, yet the resolver binds identity to "location_id", the LAST
matching header, not the earliest one "store_id" as the claim states. -/
theorem c1_counterexample :
    idPred (pyLower "store_id") = true ∧
    idPred (pyLower "location_id") = true ∧
    (detectColumns ["store_id", "location_id"]).id_column = some "location_id" ∧
    (detectColumns ["store_id", "location_id"]).id_column ≠ some "store_id" := by
  decide

/-- C2 — counterexample. For headers ["a","b","c"] the resolver surfaces four
advisories (one per unresolved role, the inactive-DSP one included), not the
three the claim states. -/
theorem c2_counterexample :
    (resolveColumns ["a", "b", "c"]).warnings.length ≠ 3 := by
  decide

/-- C2 — amended. Headers ["a","b","c"] (no keyword matches) resolve to
identity="a", name="b", company="c", inactivePlatforms unresolved, with
exactly FOUR non-fatal advisories: one per positional fallback and one for
the unresolved inactive-DSP column. -/
theorem c2_fallback_resolution :
    (resolveColumns ["a", "b", "c"]).mapping =
      ⟨some "a", some "b", some "c", none⟩ ∧
    (resolveColumns ["a", "b", "c"]).warnings.length = 4 := by
  decide

/-- C8 — confirmed. Headers ["store_id","store_name","company_name",
"inactive_dsps"] resolve to exactly the four intended columns, with no
advisories. -/
theorem c8_canonical_headers :
    resolveColumns ["store_id", "store_name", "company_name", "inactive_dsps"] =
      ⟨⟨some "store_id", some "store_name", some "company_name", some "inactive_dsps"⟩, []⟩ := by
  decide

/-! ## Feed Loader (store_dashboard.py lines 23-41) -/

/-- A parsed CSV table (a pandas DataFrame at the granularity the dashboard
uses it): the header names, and the rows as associations of column name to
cell text. -/
structure Table where
  columns : List String
  rows : List (List (String × String))
  deriving DecidableEq, Repr

/-- Embeds `load_data` (lines 24-41). The body of the `try` block — the HTTP
GET, `raise_for_status` and `pd.read_csv` — is external I/O, so its outcome is
the argument: `.ok` with the parsed table, or `.error` with the message of
whatever exception was raised. The `except` clause displays the error and
returns `pd.DataFrame()`, the empty table. -/
def load_data (fetchResult : Except String Table) : Table :=
  match fetchResult with
  | .ok df => df
  | .error _ => ⟨[], []⟩

/-- C4 — confirmed. On any fetch or parse failure (any raised exception `e`),
`load_data` returns the empty-table sentinel to its caller; being a total
function into `Table`, it propagates no fault. -/
theorem c4_load_data_error_sentinel (e : String) :
    load_data (Except.error e) = ⟨[], []⟩ :=
  rfl

/-! ## Annotation Store (store_dashboard.py lines 43-53)

`load_status_data` checks `os.path.exists` and, when the file exists, returns
`json.load(f)` with no exception handling; `save_status_data` writes
`json.dump(status_data, f)`. The filesystem and the `json` codec are modelled
at the value level: the persistence file is absent, present-but-unparseable
(its read or `json.load` raises), or present holding a JSON document. -/

/-- A JSON value, as `json.load` may return. -/
inductive Json where
  | str (s : String)
  | num (n : Int)
  | boolean (b : Bool)
  | null
  | arr (elems : List Json)
  | obj (fields : List (String × Json))

/-- State of the persistence file `status_persistence.json`. -/
inductive FileState where
  | absent
  | invalid
  | valid (doc : Json)

/-- Embeds `load_status_data` (lines 44-48): if the file exists, return
`json.load(f)` — which raises a `JSONDecodeError` (uncaught) when the file's
contents are not valid JSON; otherwise return `{}`. -/
def load_status_data : FileState → Except String Json
  | .absent => .ok (.obj [])
  | .invalid => .error "json.decoder.JSONDecodeError"
  | .valid doc => .ok doc

/-- The JSON document `json.dump` writes for a string-to-string dict. -/
def jsonOfStatusData (status_data : List (String × String)) : Json :=
  .obj (status_data.map (fun p => (p.1, .str p.2)))

/-- Embeds `save_status_data` (lines 51-53): overwrite the persistence file
with the JSON serialization of `status_data`. -/
def save_status_data (status_data : List (String × String)) : FileState :=
  .valid (jsonOfStatusData status_data)

/-- Decode JSON object fields as string-to-string entries; fails on any
non-string value. -/
def decodeFields : List (String × Json) → Option (List (String × String))
  | [] => some []
  | (k, .str v) :: rest => (decodeFields rest).map (fun l => (k, v) :: l)
  | _ => none

/-- Read a JSON document back as a string-to-string mapping (how a persisted
`AnnotationRecord` document denotes a Python dict of status labels). -/
def jsonAsStringMap : Json → Option (List (String × String))
  | .obj fields => decodeFields fields
  | _ => none

/-- C3 — counterexample. When the persistence file is present but malformed,
`load_status_data` propagates the `json.load` exception instead of yielding a
mapping, refuting "for every state of the persistence file … load yields a
mapping rather than raising". -/
theorem c3_counterexample :
    load_status_data FileState.invalid = .error "json.decoder.JSONDecodeError" :=
  rfl

/-- C3 — amended. `load_status_data` returns the empty mapping when no
persisted document exists, and returns the parsed document when one exists
and is valid JSON; but when the file is present and unreadable/malformed it
raises rather than degrading to the empty annotation set. -/
theorem c3_load_behavior :
    load_status_data .absent = .ok (.obj []) ∧
    (∀ d : Json, load_status_data (.valid d) = .ok d) ∧
    load_status_data .invalid = .error "json.decoder.JSONDecodeError" :=
  ⟨rfl, fun _ => rfl, rfl⟩

/-- C5 — confirmed. Round-trip of annotation persistence: saving any
string-to-string `status_data` and reloading succeeds, and the reloaded
document denotes exactly the mapping that was saved. -/
theorem c5_round_trip (m : List (String × String)) :
    load_status_data (save_status_data m) = .ok (jsonOfStatusData m) ∧
    jsonAsStringMap (jsonOfStatusData m) = some m := by
  refine ⟨rfl, ?_⟩
  induction m with
  | nil => rfl
  | cons p rest ih =>
    cases p with
    | mk k v =>
      simp only [jsonAsStringMap, jsonOfStatusData, List.map_cons, decodeFields] at *
      rw [ih]
      rfl

/-! ## Dashboard Renderer: the status rows (store_dashboard.py lines 123-178)

The row loop's effect on `st.session_state.status_data` is what the remaining
claims are about: default-inserting each store's key (lines 131-132), the
selectbox default (line 166), the write-back of the selection (line 170), and
the status-filter display (lines 224-238). -/

/-- One row of the table: column name to cell text. -/
abbrev Row := List (String × String)

/-- Cell lookup `row[col]`. A DataFrame row carries every column, so on
well-formed tables the default branch is never reached. -/
def cellOf (r : Row) (c : String) : String :=
  match r.find? (fun p => p.1 == c) with
  | some p => p.2
  | none => ""

/-- `STATUS_OPTIONS` (line 20). -/
def STATUS_OPTIONS : List String := ["", "Dormant", "Inactive", "Endorsed", "Fixed"]

/-- `str(row[id_column]) if id_column in data.columns else str(index)`
(line 128; again at line 227). Cells are already text; `str(index)` is the
decimal row position; `id_column` may be Python `None`, which is never `in
data.columns`. -/
def storeIdOf (columns : List String) (idCol : Option String) (index : Nat) (row : Row) : String :=
  match idCol with
  | some c => if columns.contains c then cellOf row c else toString index
  | none => toString index

/-- The in-memory `status_data` dict (store identifier → status label),
modelled as an association list with at most one entry per key. -/
abbrev StatusData := List (String × String)

/-- Python `k in m` on the dict. -/
def hasKey : StatusData → String → Bool
  | [], _ => false
  | p :: rest, k => decide (p.1 = k) || hasKey rest k

/-- Python `m.get(k, "")` — also `m[k]` wherever the key is present. -/
def getStatus : StatusData → String → String
  | [], _ => ""
  | p :: rest, k => if p.1 = k then p.2 else getStatus rest k

/-- Python dict assignment `m[k] = v`: update in place, or append a new entry. -/
def setKey : StatusData → String → String → StatusData
  | [], k, v => [(k, v)]
  | p :: rest, k, v => if p.1 = k then (k, v) :: rest else p :: setKey rest k v

/-- Modelled behavior of `st.selectbox(label, options, index, key)`: the widget
returns its stored selection for its key when one exists — always one of the
options, a stale value outside them falling back to the default — and
otherwise the option at the given default index. -/
def selectbox (options : List String) (index : Nat) (widgetState : Option String) : String :=
  match widgetState with
  | some v => if v ∈ options then v else options.getD index ""
  | none => options.getD index ""

/-- One iteration of the row loop (lines 126-173) restricted to its effect on
`status_data`: default-insert the store's key with "" (lines 131-132), compute
the selectbox default index (line 166:
`STATUS_OPTIONS.index(v) if v in STATUS_OPTIONS else 0`), read the widget's
selection, and write it back (line 170). `sel` is the per-store widget state;
the widget keys `status_{store_id}` are in bijection with store ids. -/
def renderRow (sel : String → Option String) (status : StatusData) (store_id : String) :
    StatusData :=
  let status1 := if hasKey status store_id then status else setKey status store_id ""
  let cur := getStatus status1 store_id
  let index := if cur ∈ STATUS_OPTIONS then STATUS_OPTIONS.indexOf cur else 0
  let selected := selectbox STATUS_OPTIONS index (sel store_id)
  setKey status1 store_id selected

/-- The row loop folded over the enumerated rows, acting on `status_data`. -/
def processRows (sel : String → Option String) (columns : List String) (idCol : Option String)
    (status : StatusData) : List (Nat × Row) → StatusData
  | [] => status
  | (i, row) :: rest =>
      processRows sel columns idCol (renderRow sel status (storeIdOf columns idCol i row)) rest

/-- The full `for index, row in data.iterrows()` loop (lines 126-173) as it
acts on `status_data`. -/
def renderRows (sel : String → Option String) (t : Table) (idCol : Option String)
    (status : StatusData) : StatusData :=
  processRows sel t.columns idCol status t.rows.enum

/-- The status-filter display (lines 224-238). With a non-empty
`status_filter` the "Filtered Stores" subsection lists exactly the enumerated
rows whose current annotation (`status_data.get(store_id, "")`) lies in the
filter; with an empty filter the `if status_filter:` block is skipped and the
dashboard's main row list (lines 126-173) shows every row. -/
def displayedRows (t : Table) (idCol : Option String) (status : StatusData)
    (fil : List String) : List (Nat × Row) :=
  if fil.isEmpty then t.rows.enum
  else t.rows.enum.filter
    (fun p => fil.contains (getStatus status (storeIdOf t.columns idCol p.1 p.2)))

/-! ### Status map lemmas -/

theorem getStatus_setKey_self (m : StatusData) (k v : String) :
    getStatus (setKey m k v) k = v := by
  induction m with
  | nil => simp [setKey, getStatus]
  | cons p rest ih =>
    by_cases h : p.1 = k <;> simp [setKey, getStatus, h, ih]

theorem getStatus_setKey_ne (m : StatusData) (k v k' : String) (h : k' ≠ k) :
    getStatus (setKey m k v) k' = getStatus m k' := by
  have h' : ¬k = k' := fun hh => h hh.symm
  induction m with
  | nil => simp [setKey, getStatus, h']
  | cons p rest ih =>
    by_cases hp : p.1 = k <;> by_cases hq : p.1 = k' <;>
      simp_all [setKey, getStatus]

theorem hasKey_setKey_self (m : StatusData) (k v : String) :
    hasKey (setKey m k v) k = true := by
  induction m with
  | nil => simp [setKey, hasKey]
  | cons p rest ih =>
    by_cases h : p.1 = k <;> simp [setKey, hasKey, h, ih]

theorem hasKey_setKey_mono (m : StatusData) (k v k' : String) (h : hasKey m k' = true) :
    hasKey (setKey m k v) k' = true := by
  induction m with
  | nil => simp [hasKey] at h
  | cons p rest ih =>
    by_cases hp : p.1 = k <;> by_cases hq : p.1 = k' <;>
      simp_all [setKey, hasKey]

theorem getStatus_of_not_hasKey (m : StatusData) (k : String) (h : hasKey m k = false) :
    getStatus m k = "" := by
  induction m with
  | nil => rfl
  | cons p rest ih =>
    rcases (by simpa [hasKey] using h : ¬p.1 = k ∧ hasKey rest k = false) with ⟨h1, h2⟩
    simp [getStatus, h1, ih h2]

/-! ### Render loop lemmas -/

theorem getD_indexOf_options (v : String) (h : v ∈ STATUS_OPTIONS) :
    STATUS_OPTIONS.getD (STATUS_OPTIONS.indexOf v) "" = v := by
  fin_cases h <;> rfl

theorem getStatus_insertDefault (status : StatusData) (k : String) :
    getStatus (if hasKey status k then status else setKey status k "") k =
      getStatus status k := by
  by_cases h : hasKey status k = true
  · simp [h]
  · have hf : hasKey status k = false := by simpa using h
    simp [hf, getStatus_setKey_self, getStatus_of_not_hasKey status k hf]

theorem getStatus_renderRow_self (sel : String → Option String) (st : StatusData) (k : String) :
    getStatus (renderRow sel st k) k =
      match sel k with
      | some v =>
          if v ∈ STATUS_OPTIONS then v
          else if getStatus st k ∈ STATUS_OPTIONS then getStatus st k else ""
      | none => if getStatus st k ∈ STATUS_OPTIONS then getStatus st k else "" := by
  have hins := getStatus_insertDefault st k
  simp only [renderRow]
  rw [getStatus_setKey_self, hins]
  cases sel k with
  | none =>
    simp only [selectbox]
    by_cases h : getStatus st k ∈ STATUS_OPTIONS
    · rw [if_pos h, if_pos h, getD_indexOf_options _ h]
    · rw [if_neg h, if_neg h]
      rfl
  | some v =>
    simp only [selectbox]
    by_cases hv : v ∈ STATUS_OPTIONS
    · rw [if_pos hv, if_pos hv]
    · rw [if_neg hv, if_neg hv]
      by_cases h : getStatus st k ∈ STATUS_OPTIONS
      · rw [if_pos h, if_pos h, getD_indexOf_options _ h]
      · rw [if_neg h, if_neg h]
        rfl

theorem getStatus_renderRow_self_mem (sel : String → Option String) (st : StatusData)
    (k : String) : getStatus (renderRow sel st k) k ∈ STATUS_OPTIONS := by
  rw [getStatus_renderRow_self]
  cases sel k with
  | none =>
    by_cases h : getStatus st k ∈ STATUS_OPTIONS <;> simp_all [STATUS_OPTIONS]
  | some v =>
    by_cases hv : v ∈ STATUS_OPTIONS <;>
      by_cases h : getStatus st k ∈ STATUS_OPTIONS <;> simp_all [STATUS_OPTIONS]

theorem getStatus_renderRow_none (sel : String → Option String) (st : StatusData) (k : String)
    (hsel : sel k = none) (hst : getStatus st k = "") :
    getStatus (renderRow sel st k) k = "" := by
  rw [getStatus_renderRow_self, hsel, hst]
  simp [STATUS_OPTIONS]

theorem getStatus_renderRow_none_cases (sel : String → Option String) (st : StatusData)
    (k : String) (hsel : sel k = none) :
    getStatus (renderRow sel st k) k = getStatus st k ∨
    getStatus (renderRow sel st k) k = "" := by
  rw [getStatus_renderRow_self, hsel]
  by_cases h : getStatus st k ∈ STATUS_OPTIONS <;> simp [h]

theorem getStatus_renderRow_ne (sel : String → Option String) (st : StatusData) (k k' : String)
    (h : k' ≠ k) : getStatus (renderRow sel st k) k' = getStatus st k' := by
  simp only [renderRow]
  rw [getStatus_setKey_ne _ _ _ _ h]
  by_cases hk : hasKey st k = true <;> simp [hk, getStatus_setKey_ne _ _ _ _ h]

theorem hasKey_renderRow_self (sel : String → Option String) (st : StatusData) (k : String) :
    hasKey (renderRow sel st k) k = true := by
  simp only [renderRow]
  exact hasKey_setKey_self _ _ _

theorem hasKey_renderRow_mono (sel : String → Option String) (st : StatusData) (k k' : String)
    (h : hasKey st k' = true) : hasKey (renderRow sel st k) k' = true := by
  simp only [renderRow]
  apply hasKey_setKey_mono
  by_cases hk : hasKey st k = true
  · simpa [hk] using h
  · simp only [hk, if_false, Bool.false_eq_true, if_neg]
    exact hasKey_setKey_mono _ _ _ _ h

theorem hasKey_processRows_mono (sel : String → Option String) (cols : List String)
    (idCol : Option String) (l : List (Nat × Row)) (st : StatusData) (k : String)
    (h : hasKey st k = true) : hasKey (processRows sel cols idCol st l) k = true := by
  induction l generalizing st with
  | nil => simpa [processRows] using h
  | cons p rest ih =>
    cases p with
    | mk i row => exact ih _ (hasKey_renderRow_mono _ _ _ _ h)

theorem mem_processRows_hasKey (sel : String → Option String) (cols : List String)
    (idCol : Option String) (l : List (Nat × Row)) (st : StatusData) (i : Nat) (row : Row)
    (hmem : (i, row) ∈ l) :
    hasKey (processRows sel cols idCol st l) (storeIdOf cols idCol i row) = true := by
  induction l generalizing st with
  | nil => cases hmem
  | cons p rest ih =>
    cases p with
    | mk j row' =>
      simp only [processRows]
      rcases List.mem_cons.mp hmem with heq | htail
      · cases heq
        exact hasKey_processRows_mono _ _ _ _ _ _ (hasKey_renderRow_self _ _ _)
      · exact ih _ htail

theorem getStatus_processRows_default (sel : String → Option String) (cols : List String)
    (idCol : Option String) (l : List (Nat × Row)) (st : StatusData) (sid : String)
    (hsel : sel sid = none) (hst : getStatus st sid = "") :
    getStatus (processRows sel cols idCol st l) sid = "" := by
  induction l generalizing st with
  | nil => simpa [processRows] using hst
  | cons p rest ih =>
    cases p with
    | mk i row =>
      simp only [processRows]
      by_cases hk : storeIdOf cols idCol i row = sid
      · subst hk
        exact ih _ (getStatus_renderRow_none _ _ _ hsel hst)
      · exact ih _ ((getStatus_renderRow_ne sel st _ sid (fun hh => hk hh.symm)).trans hst)

theorem getStatus_processRows_mem (sel : String → Option String) (cols : List String)
    (idCol : Option String) (l : List (Nat × Row)) (st : StatusData) (sid : String)
    (h : getStatus st sid ∈ STATUS_OPTIONS) :
    getStatus (processRows sel cols idCol st l) sid ∈ STATUS_OPTIONS := by
  induction l generalizing st with
  | nil => simpa [processRows] using h
  | cons p rest ih =>
    cases p with
    | mk i row =>
      simp only [processRows]
      by_cases hk : storeIdOf cols idCol i row = sid
      · subst hk
        exact ih _ (getStatus_renderRow_self_mem sel st _)
      · exact ih _ ((getStatus_renderRow_ne sel st _ sid (fun hh => hk hh.symm)) ▸ h)

theorem mem_processRows_status_mem (sel : String → Option String) (cols : List String)
    (idCol : Option String) (l : List (Nat × Row)) (st : StatusData) (i : Nat) (row : Row)
    (hmem : (i, row) ∈ l) :
    getStatus (processRows sel cols idCol st l) (storeIdOf cols idCol i row) ∈
      STATUS_OPTIONS := by
  induction l generalizing st with
  | nil => cases hmem
  | cons p rest ih =>
    cases p with
    | mk j row' =>
      simp only [processRows]
      rcases List.mem_cons.mp hmem with heq | htail
      · cases heq
        exact getStatus_processRows_mem _ _ _ _ _ _ (getStatus_renderRow_self_mem _ _ _)
      · exact ih _ htail

theorem getStatus_processRows_orig_or_empty (sel : String → Option String) (cols : List String)
    (idCol : Option String) (l : List (Nat × Row)) (st : StatusData) (sid : String)
    (hsel : sel sid = none) :
    getStatus (processRows sel cols idCol st l) sid = getStatus st sid ∨
    getStatus (processRows sel cols idCol st l) sid = "" := by
  induction l generalizing st with
  | nil => left; rfl
  | cons p rest ih =>
    cases p with
    | mk i row =>
      simp only [processRows]
      by_cases hk : storeIdOf cols idCol i row = sid
      · subst hk
        rcases getStatus_renderRow_none_cases sel st _ hsel with hc | hc
        · rcases ih (renderRow sel st _) with h1 | h1
          · left; rw [h1, hc]
          · right; exact h1
        · rcases ih (renderRow sel st _) with h1 | h1
          · right; rw [h1, hc]
          · right; exact h1
      · have hne := getStatus_renderRow_ne sel st _ sid (fun hh => hk hh.symm)
        rcases ih (renderRow sel st _) with h1 | h1
        · left; rw [h1, hne]
        · right; exact h1

/-! ### Claims about the render loop and filtering -/

/-- C6 — confirmed. By the time rows render, every store identifier of the
current feed has an entry in the in-memory `status_data`, and an identifier
absent from the annotation document at load time (and without a prior widget
selection — i.e. taking the control's default) holds the default empty-string
status. -/
theorem c6_every_feed_id_has_entry (sel : String → Option String) (t : Table)
    (idCol : Option String) (status : StatusData) :
    (∀ i row, (i, row) ∈ t.rows.enum →
      hasKey (renderRows sel t idCol status) (storeIdOf t.columns idCol i row) = true) ∧
    (∀ sid, sel sid = none → hasKey status sid = false →
      getStatus (renderRows sel t idCol status) sid = "") := by
  constructor
  · intro i row hmem
    exact mem_processRows_hasKey _ _ _ _ _ _ _ hmem
  · intro sid hsel hst
    exact getStatus_processRows_default _ _ _ _ _ _ hsel (getStatus_of_not_hasKey _ _ hst)

/-- C7 — confirmed. Filtering by a non-empty status set displays exactly the
rows whose current annotation value lies in that set; filtering by the empty
set applies no filtering, so all rows are displayed. -/
theorem c7_status_filter_rows (t : Table) (idCol : Option String) (status : StatusData)
    (fil : List String) :
    (fil = [] → displayedRows t idCol status fil = t.rows.enum) ∧
    (fil ≠ [] → ∀ i row,
      ((i, row) ∈ displayedRows t idCol status fil ↔
        (i, row) ∈ t.rows.enum ∧
          getStatus status (storeIdOf t.columns idCol i row) ∈ fil)) := by
  constructor
  · intro h
    subst h
    rfl
  · intro h i row
    have hne : fil.isEmpty = false := by
      cases fil with
      | nil => exact absurd rfl h
      | cons a l => rfl
    simp [displayedRows, hne, List.mem_filter, List.contains, List.elem_iff]

/-- C9 — confirmed. No key is ever removed from `status_data`: rendering and
status editing (the row loop with arbitrary widget selections) preserve every
existing key; loading and saving are pure reads and writes of the whole map. -/
theorem c9_no_key_removed (sel : String → Option String) (t : Table) (idCol : Option String)
    (status : StatusData) (sid : String) (h : hasKey status sid = true) :
    hasKey (renderRows sel t idCol status) sid = true :=
  hasKey_processRows_mono _ _ _ _ _ _ h

/-- C10 — confirmed. After a render pass, every rendered store's in-memory
status lies in `STATUS_OPTIONS`; and a store whose persisted value is outside
the five options, with no prior widget selection, is defaulted to the empty
string. -/
theorem c10_rendered_status_in_options (sel : String → Option String) (t : Table)
    (idCol : Option String) (status : StatusData) (i : Nat) (row : Row)
    (hmem : (i, row) ∈ t.rows.enum) :
    getStatus (renderRows sel t idCol status) (storeIdOf t.columns idCol i row) ∈
      STATUS_OPTIONS ∧
    (sel (storeIdOf t.columns idCol i row) = none →
      getStatus status (storeIdOf t.columns idCol i row) ∉ STATUS_OPTIONS →
      getStatus (renderRows sel t idCol status) (storeIdOf t.columns idCol i row) = "") := by
  constructor
  · exact mem_processRows_status_mem _ _ _ _ _ _ _ hmem
  · intro hsel hnot
    rcases getStatus_processRows_orig_or_empty sel t.columns idCol t.rows.enum status _ hsel
      with h1 | h1
    · exact absurd (h1 ▸ mem_processRows_status_mem sel t.columns idCol t.rows.enum status _ _ hmem) hnot
    · exact h1

/-! ### Concrete witnesses -/

/-- Witness for C6: a one-row feed with id column "sid" and store "S1", an
empty annotation map and no widget selections — "S1" gets an entry, and the
unseen "S2" keeps the default empty status. -/
theorem c6_witness :
    hasKey (renderRows (fun _ => none) ⟨["sid"], [[("sid", "S1")]]⟩ (some "sid") []) "S1" =
      true ∧
    getStatus (renderRows (fun _ => none) ⟨["sid"], [[("sid", "S1")]]⟩ (some "sid") []) "S2" =
      "" := by
  constructor
  · exact (c6_every_feed_id_has_entry (fun _ => none) ⟨["sid"], [[("sid", "S1")]]⟩
      (some "sid") []).1 0 [("sid", "S1")] (by decide)
  · exact (c6_every_feed_id_has_entry (fun _ => none) ⟨["sid"], [[("sid", "S1")]]⟩
      (some "sid") []).2 "S2" rfl (by decide)

/-- Witness for C7: with annotation "S1" ↦ "Fixed", the filter ["Fixed"]
displays the row, and the empty filter displays every row. -/
theorem c7_witness :
    (0, [("sid", "S1")]) ∈ displayedRows ⟨["sid"], [[("sid", "S1")]]⟩ (some "sid")
      [("S1", "Fixed")] ["Fixed"] ∧
    displayedRows ⟨["sid"], [[("sid", "S1")]]⟩ (some "sid") [("S1", "Fixed")] [] =
      [(0, [("sid", "S1")])] := by
  constructor
  · exact ((c7_status_filter_rows ⟨["sid"], [[("sid", "S1")]]⟩ (some "sid") [("S1", "Fixed")]
      ["Fixed"]).2 (by decide) 0 [("sid", "S1")]).mpr ⟨by decide, by decide⟩
  · exact ((c7_status_filter_rows ⟨["sid"], [[("sid", "S1")]]⟩ (some "sid") [("S1", "Fixed")]
      []).1 rfl).trans (by decide)

/-- Witness for C9: an annotation entry "S9" ↦ "Fixed" for a store no longer
in the feed survives a full render pass. -/
theorem c9_witness :
    hasKey (renderRows (fun _ => none) ⟨["sid"], [[("sid", "S1")]]⟩ (some "sid")
      [("S9", "Fixed")]) "S9" = true :=
  c9_no_key_removed (fun _ => none) ⟨["sid"], [[("sid", "S1")]]⟩ (some "sid")
    [("S9", "Fixed")] "S9" (by decide)

/-- Witness for C10: a persisted value "Bogus" outside the status options is
defaulted to "" by the render pass, landing in the options set. -/
theorem c10_witness :
    getStatus (renderRows (fun _ => none) ⟨["sid"], [[("sid", "S1")]]⟩ (some "sid")
      [("S1", "Bogus")]) "S1" ∈ STATUS_OPTIONS ∧
    getStatus (renderRows (fun _ => none) ⟨["sid"], [[("sid", "S1")]]⟩ (some "sid")
      [("S1", "Bogus")]) "S1" = "" := by
  have h := c10_rendered_status_in_options (fun _ => none) ⟨["sid"], [[("sid", "S1")]]⟩
    (some "sid") [("S1", "Bogus")] 0 [("sid", "S1")] (by decide)
  exact ⟨h.1, h.2 rfl (by decide)⟩

end DSPDashboard
